import Mathlib

/-
Verification of the baremetalisp early-boot kernel core: the memory-map
planner (Addr::init), the two-level 64 KiB-granule translation-table
builder (TTable::new / map / unmap), the firmware and EL1 table
initializers (init_firm, init_el2, init_el1), the MMU feature detection
in mmu::init, the spinlock release path, the Lamport bakery lock
acquire loop, and the boot sequencer accesses to the process-wide
MEMORY_MAP.  Machine integers are modelled as Nat with the exact bit
operations the Rust source performs; fallible operations (the panic in
map and unmap on an out-of-range level-2 index) return Option.
-/

namespace Baremetalisp

/- Platform memory descriptor for the Allwinner A64
   (src/kernel/src/driver/device/allwinner/memory.rs). -/

def DEVICE_MEM_START : Nat := 0x01000000
def DEVICE_MEM_END : Nat := 0x02000000
def ROM_START : Nat := 0x00000000
def ROM_END : Nat := 0x00010000
def SRAM_START : Nat := 0x00010000
def SRAM_END : Nat := 0x00054000

/- Constants from src/kernel/src/aarch64/mmu.rs. -/

def PAGESIZE : Nat := 64 * 1024

def FIRM_LV2_TABLE_NUM : Nat := 1
def FIRM_LV3_TABLE_NUM : Nat := 8
def FIRM_TABLE_NUM : Nat := FIRM_LV2_TABLE_NUM + FIRM_LV3_TABLE_NUM

def KERN_TTBR0_LV2_TABLE_NUM : Nat := 1
def KERN_TTBR0_LV3_TABLE_NUM : Nat := 8
def KERN_TTBR0_TABLE_NUM : Nat := KERN_TTBR0_LV2_TABLE_NUM + KERN_TTBR0_LV3_TABLE_NUM

def KERN_TTBR1_LV2_TABLE_NUM : Nat := 1
def KERN_TTBR1_LV3_TABLE_NUM : Nat := 4
def KERN_TTBR1_TABLE_NUM : Nat := KERN_TTBR1_LV2_TABLE_NUM + KERN_TTBR1_LV3_TABLE_NUM

/- Level-3 descriptor flags (bit positions from the source). -/

def FLAG_L3_XN : Nat := 1 <<< 54
def FLAG_L3_PXN : Nat := 1 <<< 53
def FLAG_L3_CONT : Nat := 1 <<< 52
def FLAG_L3_DBM : Nat := 1 <<< 51
def FLAG_L3_AF : Nat := 1 <<< 10
def FLAG_L3_NS : Nat := 1 <<< 5
def FLAG_L3_OSH : Nat := 2 <<< 8
def FLAG_L3_ISH : Nat := 3 <<< 8
def FLAG_L3_SH_RW_N : Nat := 0
def FLAG_L3_SH_RW_RW : Nat := 1 <<< 6
def FLAG_L3_SH_R_N : Nat := 2 <<< 6
def FLAG_L3_SH_R_R : Nat := 3 <<< 6
def FLAG_L3_ATTR_MEM : Nat := 0
def FLAG_L3_ATTR_DEV : Nat := 1 <<< 2
def FLAG_L3_ATTR_NC : Nat := 2 <<< 2

/- The translation-table handle.  The Rust struct holds two mutable
   slices tt_lv2 (8192 * num_lv2 entries) and tt_lv3 (8192 * num_lv3
   entries) carved out of the page-aligned region at tt_addr, level 2
   first.  We model each slice as a total function from index to the
   64-bit entry, and record the physical base address of the level-3
   storage (tt_addr + PAGESIZE * num_lv2) because the level-2 entries
   written by TTable::new contain addresses of level-3 entries. -/

structure TTable where
  lv2 : Nat → Nat
  lv3 : Nat → Nat
  num_lv2 : Nat
  num_lv3 : Nat
  l3_base : Nat

/- The level-2 set-up loop in TTable::new:
   for i in 0..(8192 * num_lv2) { if i >= num_lv3 { break; }
     tt_lv2[i] = &tt_lv3[i * 8192] as u64 | 0b11; }
   The address of tt_lv3[i * 8192] is l3_base + 8 * (i * 8192).
   The break is modelled by skipping every iteration with i >= num_lv3,
   which writes the same set of entries. -/
def lv2_setup (l3_base num_lv3 : Nat) : Nat → (Nat → Nat) → (Nat → Nat)
  | 0, f => f
  | n + 1, f =>
    let g := lv2_setup l3_base num_lv3 n f
    if n ≥ num_lv3 then g
    else fun i => if i = n then (l3_base + 8 * (n * 8192)) ||| 0b11 else g i

/- TTable::new (mmu.rs lines 352-382): zero both levels, then set up the
   level-2 table entries. -/
def TTable.new (tt_addr num_lv2 num_lv3 : Nat) : TTable :=
  let l3_base := tt_addr + PAGESIZE * num_lv2
  { lv2 := lv2_setup l3_base num_lv3 (8192 * num_lv2) (fun _ => 0)
    lv3 := fun _ => 0
    num_lv2 := num_lv2
    num_lv3 := num_lv3
    l3_base := l3_base }

/- TTable::map (mmu.rs lines 384-396).  The Rust code panics when
   lv2idx >= num_lv3 ("memory map error"); the panic is modelled as
   none.  On success exactly one level-3 slot is written. -/
def TTable.map (t : TTable) (vm_addr phy_addr flag : Nat) : Option TTable :=
  let lv2idx := (vm_addr >>> 29) &&& 8191
  let lv3idx := (vm_addr >>> 16) &&& 8191
  if lv2idx ≥ t.num_lv3 then
    none
  else
    let e := (phy_addr &&& 0xFFFFFFFFFFFF0000) ||| flag
    let idx := lv2idx * 8192 + lv3idx
    some { t with lv3 := fun i => if i = idx then e else t.lv3 i }

/- TTable::unmap (mmu.rs lines 398-409): same index computation and the
   same panic guard ("memory unmap error"); stores 0 at the slot. -/
def TTable.unmap (t : TTable) (vm_addr : Nat) : Option TTable :=
  let lv2idx := (vm_addr >>> 29) &&& 8191
  let lv3idx := (vm_addr >>> 16) &&& 8191
  if lv2idx ≥ t.num_lv3 then
    none
  else
    let idx := lv2idx * 8192 + lv3idx
    some { t with lv3 := fun i => if i = idx then 0 else t.lv3 i }

/- The identity-mapping loops of the initializers all have the shape
     while cur < end { table.map(cur, cur, flag); cur += PAGESIZE; }
   which executes once per page start cur = s, s + PAGESIZE, ... below
   e, i.e. ceil((e - s) / PAGESIZE) iterations (0 when s >= e). -/
def page_count (s e : Nat) : Nat := (e - s + (PAGESIZE - 1)) / PAGESIZE

def map_pages (t : TTable) (s flag : Nat) : Nat → Option TTable
  | 0 => some t
  | n + 1 =>
    match t.map s s flag with
    | none => none
    | some t2 => map_pages t2 (s + PAGESIZE) flag n

def map_range (t : TTable) (s e flag : Nat) : Option TTable :=
  map_pages t s flag (page_count s e)

/- The per-CPU guard-page loops:
     for i in 0..NUM_CPU { table.unmap(base + i * stack_size); }
   processed in ascending order of i. -/
def unmap_guards (t : TTable) (base stack_size : Nat) : Nat → Option TTable
  | 0 => some t
  | n + 1 =>
    match unmap_guards t base stack_size n with
    | none => none
    | some t2 => t2.unmap (base + n * stack_size)

/- The logical address map (struct Addr, mmu.rs lines 155-179). -/
structure Addr where
  no_cache_start : Nat
  no_cache_end : Nat
  tt_firm_start : Nat
  tt_firm_end : Nat
  tt_el1_ttbr0_start : Nat
  tt_el1_ttbr0_end : Nat
  tt_el1_ttbr1_start : Nat
  tt_el1_ttbr1_end : Nat
  rom_start : Nat
  rom_end : Nat
  sram_start : Nat
  sram_end : Nat
  stack_size : Nat
  stack_el1_end : Nat
  stack_el1_start : Nat
  stack_el0_end : Nat
  stack_el0_start : Nat
  el0_heap_start : Nat
  el0_heap_end : Nat

/- Addr::init (mmu.rs lines 182-223).  The source mutates the static
   MEMORY_MAP in place, reading the linker symbol __free_mem_start and
   the core count; here it is a pure function of those two inputs, so
   determinism is by construction. -/
def Addr.init (free_mem_start num_cpu : Nat) : Addr :=
  let no_cache_start := free_mem_start
  let no_cache_end := no_cache_start + PAGESIZE * num_cpu
  let tt_firm_start := no_cache_end
  let tt_firm_end := tt_firm_start + PAGESIZE * FIRM_TABLE_NUM
  let tt_el1_ttbr0_start := tt_firm_end
  let tt_el1_ttbr0_end := tt_el1_ttbr0_start + PAGESIZE * KERN_TTBR0_TABLE_NUM
  let tt_el1_ttbr1_start := tt_el1_ttbr0_end
  let tt_el1_ttbr1_end := tt_el1_ttbr1_start + PAGESIZE * KERN_TTBR1_TABLE_NUM
  let stack_size := 32 * PAGESIZE
  let stack_size_total := stack_size * num_cpu
  let stack_el1_end := tt_el1_ttbr1_end
  let stack_el1_start := stack_el1_end + stack_size_total
  let stack_el0_end := stack_el1_start
  let stack_el0_start := stack_el0_end + stack_size_total
  let el0_heap_start := stack_el0_start
  let el0_heap_end := el0_heap_start + PAGESIZE * 1024
  { no_cache_start := no_cache_start
    no_cache_end := no_cache_end
    tt_firm_start := tt_firm_start
    tt_firm_end := tt_firm_end
    tt_el1_ttbr0_start := tt_el1_ttbr0_start
    tt_el1_ttbr0_end := tt_el1_ttbr0_end
    tt_el1_ttbr1_start := tt_el1_ttbr1_start
    tt_el1_ttbr1_end := tt_el1_ttbr1_end
    rom_start := ROM_START
    rom_end := ROM_END
    sram_start := SRAM_START
    sram_end := SRAM_END
    stack_size := stack_size
    stack_el1_end := stack_el1_end
    stack_el1_start := stack_el1_start
    stack_el0_end := stack_el0_end
    stack_el0_start := stack_el0_start
    el0_heap_start := el0_heap_start
    el0_heap_end := el0_heap_end }

/- The linker-script symbols read by the initializers.  The linker
   provides only addresses; they are parameters of the model. -/
structure LinkerSyms where
  ram_start : Nat
  data_start : Nat
  bss_start : Nat
  stack_firm_end : Nat
  stack_firm_start : Nat

/- init_firm (mmu.rs lines 544-702): builds the firmware table by a
   fixed sequence of identity map loops and the per-CPU guard-page
   unmaps.  Every loop maps VA = PA with the flag computed in the
   source.  The panic inside map and unmap propagates as none. -/
def init_firm (num_cpu : Nat) (ls : LinkerSyms) (addr : Addr) : Option TTable := do
  let t := TTable.new addr.tt_firm_start FIRM_LV2_TABLE_NUM FIRM_LV3_TABLE_NUM
  -- map ROM
  let t ← if addr.rom_start ≠ addr.rom_end then
      map_range t addr.rom_start addr.rom_end
        (FLAG_L3_AF ||| FLAG_L3_ISH ||| FLAG_L3_SH_R_N ||| FLAG_L3_ATTR_MEM ||| 0b11)
    else some t
  -- map SRAM
  let t ← if addr.sram_start ≠ addr.sram_end then
      map_range t addr.sram_start addr.sram_end
        (FLAG_L3_AF ||| FLAG_L3_ISH ||| FLAG_L3_SH_RW_N ||| FLAG_L3_ATTR_MEM ||| 0b11)
    else some t
  -- map .init and .text section
  let t ← map_range t ls.ram_start ls.data_start
    (FLAG_L3_AF ||| FLAG_L3_ISH ||| FLAG_L3_SH_R_R ||| FLAG_L3_ATTR_MEM ||| 0b11)
  -- map .data
  let t ← map_range t ls.data_start ls.bss_start
    (FLAG_L3_XN ||| FLAG_L3_PXN ||| FLAG_L3_AF ||| FLAG_L3_ISH |||
     FLAG_L3_SH_RW_RW ||| FLAG_L3_ATTR_MEM ||| 0b11)
  -- map .bss section (up to __stack_firm_end)
  let t ← map_range t ls.bss_start ls.stack_firm_end
    (FLAG_L3_XN ||| FLAG_L3_PXN ||| FLAG_L3_AF ||| FLAG_L3_ISH |||
     FLAG_L3_SH_RW_RW ||| FLAG_L3_ATTR_MEM ||| 0b11)
  -- map firmware stack
  let t ← map_range t ls.stack_firm_end ls.stack_firm_start
    (FLAG_L3_XN ||| FLAG_L3_PXN ||| FLAG_L3_AF ||| FLAG_L3_ISH |||
     FLAG_L3_SH_RW_N ||| FLAG_L3_ATTR_MEM ||| 0b11)
  -- per-CPU firmware-stack guard pages
  let t ← unmap_guards t ls.stack_firm_end addr.stack_size num_cpu
  -- map non cached memory
  let t ← map_range t addr.no_cache_start addr.no_cache_end
    (FLAG_L3_XN ||| FLAG_L3_PXN ||| FLAG_L3_AF ||| FLAG_L3_ISH |||
     FLAG_L3_SH_RW_N ||| FLAG_L3_ATTR_MEM ||| 0b11)
  -- map the firmware translation table itself
  let t ← map_range t addr.tt_firm_start addr.tt_firm_end
    (FLAG_L3_XN ||| FLAG_L3_PXN ||| FLAG_L3_AF ||| FLAG_L3_ISH |||
     FLAG_L3_SH_RW_N ||| FLAG_L3_ATTR_MEM ||| FLAG_L3_ATTR_NC ||| 0b11)
  -- map the EL1 TTBR0 translation table
  let t ← map_range t addr.tt_el1_ttbr0_start addr.tt_el1_ttbr0_end
    (FLAG_L3_XN ||| FLAG_L3_PXN ||| FLAG_L3_AF ||| FLAG_L3_ISH |||
     FLAG_L3_SH_RW_N ||| FLAG_L3_ATTR_MEM ||| FLAG_L3_ATTR_NC ||| 0b11)
  -- map the EL1 TTBR1 translation table
  let t ← map_range t addr.tt_el1_ttbr1_start addr.tt_el1_ttbr1_end
    (FLAG_L3_XN ||| FLAG_L3_PXN ||| FLAG_L3_AF ||| FLAG_L3_ISH |||
     FLAG_L3_SH_RW_N ||| FLAG_L3_ATTR_MEM ||| FLAG_L3_ATTR_NC ||| 0b11)
  -- map device memory
  let t ← map_range t DEVICE_MEM_START DEVICE_MEM_END
    (FLAG_L3_NS ||| FLAG_L3_XN ||| FLAG_L3_PXN ||| FLAG_L3_AF ||| FLAG_L3_OSH |||
     FLAG_L3_SH_RW_RW ||| FLAG_L3_ATTR_DEV ||| 0b11)
  some t

/- init_el2 (mmu.rs lines 729-745): the firmware table plus the extra
   identity mapping of VA 0 (the early exception-vector workaround). -/
def init_el2 (num_cpu : Nat) (ls : LinkerSyms) (addr : Addr) : Option TTable := do
  let t ← init_firm num_cpu ls addr
  t.map 0 0
    (FLAG_L3_XN ||| FLAG_L3_PXN ||| FLAG_L3_AF ||| FLAG_L3_ISH |||
     FLAG_L3_SH_RW_N ||| FLAG_L3_ATTR_MEM ||| FLAG_L3_ATTR_NC ||| 0b11)

/- init_el1 (mmu.rs lines 766-926): builds the TTBR0 (user space) and
   TTBR1 (kernel space) tables. -/
def init_el1 (num_cpu : Nat) (ls : LinkerSyms) (addr : Addr) :
    Option (TTable × TTable) := do
  -- TTBR0: user space
  let t0 := TTable.new addr.tt_el1_ttbr0_start
    KERN_TTBR0_LV2_TABLE_NUM KERN_TTBR0_LV3_TABLE_NUM
  -- map .init and .text section
  let t0 ← map_range t0 ls.ram_start ls.data_start
    (FLAG_L3_AF ||| FLAG_L3_ISH ||| FLAG_L3_SH_R_R ||| FLAG_L3_ATTR_MEM ||| 0b11)
  -- map .data
  let t0 ← map_range t0 ls.data_start ls.bss_start
    (FLAG_L3_XN ||| FLAG_L3_PXN ||| FLAG_L3_AF ||| FLAG_L3_ISH |||
     FLAG_L3_SH_RW_RW ||| FLAG_L3_ATTR_MEM ||| 0b11)
  -- map .bss section (up to __stack_firm_end)
  let t0 ← map_range t0 ls.bss_start ls.stack_firm_end
    (FLAG_L3_XN ||| FLAG_L3_PXN ||| FLAG_L3_AF ||| FLAG_L3_ISH |||
     FLAG_L3_SH_RW_RW ||| FLAG_L3_ATTR_MEM ||| 0b11)
  -- map userland stack
  let t0 ← map_range t0 addr.stack_el0_end addr.stack_el0_start
    (FLAG_L3_XN ||| FLAG_L3_PXN ||| FLAG_L3_AF ||| FLAG_L3_ISH |||
     FLAG_L3_SH_RW_RW ||| FLAG_L3_ATTR_MEM ||| 0b11)
  -- per-CPU userland-stack guard pages
  let t0 ← unmap_guards t0 addr.stack_el0_end addr.stack_size num_cpu
  -- map userland heap
  let t0 ← map_range t0 addr.el0_heap_start addr.el0_heap_end
    (FLAG_L3_XN ||| FLAG_L3_PXN ||| FLAG_L3_AF ||| FLAG_L3_ISH |||
     FLAG_L3_SH_RW_RW ||| FLAG_L3_ATTR_MEM ||| 0b11)
  -- map device memory
  let t0 ← map_range t0 DEVICE_MEM_START DEVICE_MEM_END
    (FLAG_L3_NS ||| FLAG_L3_XN ||| FLAG_L3_PXN ||| FLAG_L3_AF ||| FLAG_L3_OSH |||
     FLAG_L3_SH_RW_RW ||| FLAG_L3_ATTR_DEV ||| 0b11)
  -- TTBR1: kernel space
  let t1 := TTable.new addr.tt_el1_ttbr1_start
    KERN_TTBR1_LV2_TABLE_NUM KERN_TTBR1_LV3_TABLE_NUM
  -- kernel stack
  let t1 ← map_range t1 addr.stack_el1_end addr.stack_el1_start
    (FLAG_L3_XN ||| FLAG_L3_PXN ||| FLAG_L3_AF ||| FLAG_L3_ISH |||
     FLAG_L3_SH_RW_N ||| FLAG_L3_ATTR_MEM ||| 0b11)
  -- per-CPU kernel-stack guard pages
  let t1 ← unmap_guards t1 addr.stack_el1_end addr.stack_size num_cpu
  -- map the TTBR0 translation table
  let t1 ← map_range t1 addr.tt_el1_ttbr0_start addr.tt_el1_ttbr0_end
    (FLAG_L3_XN ||| FLAG_L3_PXN ||| FLAG_L3_AF ||| FLAG_L3_ISH |||
     FLAG_L3_SH_RW_N ||| FLAG_L3_ATTR_MEM ||| FLAG_L3_ATTR_NC ||| 0b11)
  -- map the TTBR1 translation table
  let t1 ← map_range t1 addr.tt_el1_ttbr1_start addr.tt_el1_ttbr1_end
    (FLAG_L3_XN ||| FLAG_L3_PXN ||| FLAG_L3_AF ||| FLAG_L3_ISH |||
     FLAG_L3_SH_RW_N ||| FLAG_L3_ATTR_MEM ||| FLAG_L3_ATTR_NC ||| 0b11)
  some (t0, t1)

/- mmu::init (mmu.rs lines 472-504).  It first reads ID_AA64MMFR0_EL1
   and rejects hardware without a 36-bit physical address range
   (field [3:0] < 1) or without the 64 KiB granule (field [27:24]
   nonzero), printing the error over the UART and returning None before
   any table is built; otherwise it builds the firmware table (init_el2
   at EL2, init_el3 = init_firm plus register writes otherwise) and the
   two EL1 tables.  The result distinguishes the feature-detect
   rejection (unsupported, carrying the UART error text) from the built
   tables; the Option inside built threads the map and unmap panic. -/
inductive MmuInitResult where
  | unsupported (msg : String)
  | built (firm : Option TTable) (el1 : Option (TTable × TTable))

def mmu_init (num_cpu : Nat) (ls : LinkerSyms) (addr : Addr) (el mmfr : Nat) :
    MmuInitResult :=
  if mmfr &&& 0xF < 1 then
    MmuInitResult.unsupported "ERROR: 36 bit address space not supported\n"
  else if mmfr &&& (0xF <<< 24) ≠ 0 then
    MmuInitResult.unsupported "ERROR: 64KiB granule not supported\n"
  else
    MmuInitResult.built
      (if el = 2 then init_el2 num_cpu ls addr else init_firm num_cpu ls addr)
      (init_el1 num_cpu ls addr)

/- Concrete Allwinner A64 instantiation: 4 cores, __free_mem_start =
   0x40080000 (DRAM begins at 0x40000000), with representative values
   for the remaining linker symbols placed between the DRAM base and
   the free-memory start. -/
def a64_addr : Addr := Addr.init 0x40080000 4

def a64_ls : LinkerSyms :=
  { ram_start := 0x40000000
    data_start := 0x40010000
    bss_start := 0x40020000
    stack_firm_end := 0x40030000
    stack_firm_start := 0x40080000 }

/- The level-3 slot index of a virtual address, as computed by map and
   unmap: L3[((va >> 29) & 8191) * 8192 + ((va >> 16) & 8191)]. -/
def idx3 (va : Nat) : Nat :=
  ((va >>> 29) &&& 8191) * 8192 + ((va >>> 16) &&& 8191)

/- ------------------------------------------------------------------
   Locks (src/kernel/src/aarch64/lock.rs).
   ------------------------------------------------------------------ -/

/- BakeryTicket (lock.rs lines 52-63): entering and number arrays of
   length NUM_CPU, initialized all-false and all-zero.  The arrays are
   modelled as total functions; only indices below the core count are
   ever used. -/
structure BakeryTicket where
  entering : Nat → Bool
  number : Nat → Nat

def BakeryTicket.new : BakeryTicket :=
  { entering := fun _ => false, number := fun _ => 0 }

/- The ticket maximum (lock.rs lines 79-84):
     let mut max = 0; for v in &t.number { if max < *v { max = *v } } -/
def bakery_max (num_cpu : Nat) (t : BakeryTicket) : Nat :=
  (List.range num_cpu).foldl (fun m i => if m < t.number i then t.number i else m) 0

/- One pass of steps 1-4 of the acquire loop body (lock.rs lines
   78-87): entering[core] := true; number[core] := 1 + max;
   entering[core] := false; dmb (a barrier, stateless here). -/
def bakery_take_ticket (num_cpu core : Nat) (t : BakeryTicket) : BakeryTicket :=
  let t1 : BakeryTicket :=
    { t with entering := fun i => if i = core then true else t.entering i }
  let m := bakery_max num_cpu t1
  let t2 : BakeryTicket :=
    { t1 with number := fun i => if i = core then 1 + m else t1.number i }
  { t2 with entering := fun i => if i = core then false else t2.entering i }

/- Rust tuple comparison (number[i], i) < (number[core], core). -/
def ticket_lt (n1 i1 n2 i2 : Nat) : Bool :=
  Nat.blt n1 n2 || (Nat.beq n1 n2 && Nat.blt i1 i2)

/- The scan (lock.rs lines 89-93).  With no other core acting, each
   inner busy-wait either exits at once (its condition is false) or
   spins forever; the scan completes exactly when every condition is
   false. -/
def scan_ok (num_cpu core : Nat) (t : BakeryTicket) : Bool :=
  (List.range num_cpu).all fun i =>
    !t.entering i &&
    !(!Nat.beq (t.number i) 0 && ticket_lt (t.number i) i (t.number core) core)

/- BakeryLock::new (lock.rs lines 75-95).  The outer loop body takes a
   ticket, then scans; the source contains no break and no return
   statement inside the loop, so after a completed scan control goes
   back to the top of the loop and takes a fresh ticket.  A blocked
   scan spins forever (none).  Consequently no branch produces an
   acquired lock: with any amount of fuel the result is none. -/
def bakery_acquire (num_cpu core : Nat) : Nat → BakeryTicket → Option BakeryTicket
  | 0, _ => none
  | fuel + 1, t =>
    let t2 := bakery_take_ticket num_cpu core t
    if scan_ok num_cpu core t2 then bakery_acquire num_cpu core fuel t2 else none

/- CPU operations issued by the spinlock release path. -/
inductive CpuOp where
  | store_lock (v : Nat)
  | dmb_st
  | send_event
  deriving DecidableEq

/- Drop for SpinLock (lock.rs lines 40-46):
     *self.lock = 0; cpu::dmb_st(); cpu::send_event(); -/
def spinlock_drop_ops : List CpuOp :=
  [CpuOp.store_lock 0, CpuOp.dmb_st, CpuOp.send_event]

/- Effect of a CPU-operation sequence on the lock word: only
   store_lock writes it. -/
def run_lock_ops (word : Nat) : List CpuOp → Nat
  | [] => word
  | CpuOp.store_lock v :: rest => run_lock_ops v rest
  | CpuOp.dmb_st :: rest => run_lock_ops word rest
  | CpuOp.send_event :: rest => run_lock_ops word rest

/- ------------------------------------------------------------------
   Boot sequencer accesses to the process-wide MEMORY_MAP
   (src/kernel/src/lib.rs and mmu.rs).
   ------------------------------------------------------------------ -/

/- The operations relevant to the MEMORY_MAP lifecycle: a write via
   init_memory_map (the only code that writes the static, mmu.rs lines
   338-342), a read via get_memory_map, and an MMU enable via one of
   the set_reg functions. -/
inductive BootOp where
  | write_map
  | read_map
  | enable_mmu
  | other
  deriving DecidableEq

/- mmu::init (mmu.rs lines 472-504): get_memory_map, then the firmware
   register programming (inside init_el3 or init_el2) and the EL1
   register programming (inside init_el1). -/
def mmu_init_ops : List BootOp :=
  [BootOp.read_map, BootOp.enable_mmu, BootOp.enable_mmu]

/- mmu::set_regs (mmu.rs lines 456-469): get_memory_map, then
   set_reg_el2 or set_reg_el3, then set_reg_el1. -/
def set_regs_ops : List BootOp :=
  [BootOp.read_map, BootOp.enable_mmu, BootOp.enable_mmu]

/- init_master (lib.rs lines 43-82): driver early_init, mmu::init,
   then drivers and the EL transition (no MEMORY_MAP writes). -/
def init_master_ops : List BootOp :=
  BootOp.other :: mmu_init_ops ++ [BootOp.other]

/- init_slave (lib.rs lines 85-89): mmu::set_regs, then park. -/
def init_slave_ops : List BootOp :=
  set_regs_ops ++ [BootOp.other]

/- entry (lib.rs lines 92-102): every CPU, master or slave, first
   calls mmu::init_memory_map() (line 93), and only then branches on
   core_pos() == 0. -/
def entry_ops (core_pos : Nat) : List BootOp :=
  BootOp.write_map :: (if core_pos = 0 then init_master_ops else init_slave_ops)

/- ------------------------------------------------------------------
   Theorems.
   ------------------------------------------------------------------ -/

set_option maxRecDepth 1000000

/- Closed form of the level-2 set-up loop. -/
theorem lv2_setup_spec (b n3 : Nat) :
    ∀ n f i, lv2_setup b n3 n f i =
      if i < n ∧ i < n3 then (b + 8 * (i * 8192)) ||| 0b11 else f i := by
  intro n
  induction n with
  | zero =>
    intro f i
    simp [lv2_setup]
  | succ n ih =>
    intro f i
    simp only [lv2_setup]
    split
    · rename_i h
      rw [ih]
      split_ifs with h1 h2 h2 <;> first | rfl | omega
    · rename_i h
      show (if i = n then (b + 8 * (n * 8192)) ||| 0b11 else lv2_setup b n3 n f i) = _
      by_cases hin : i = n
      · subst hin
        rw [if_pos rfl, if_pos ⟨Nat.lt_succ_self _, by omega⟩]
      · rw [if_neg hin, ih]
        split_ifs with h1 h2 h2 <;> first | rfl | omega

/-- Claim C2: the memory-map planner Addr.init is a pure (hence
deterministic) function of the free-memory start and the core count; it
lays the regions out contiguously in the order no_cache (one page per
CPU), firmware tables (9 pages), EL1 TTBR0 tables (9 pages), EL1 TTBR1
tables (5 pages), EL1 stacks (32 pages per CPU, start above end), EL0
stacks, EL0 heap (1024 pages), each region beginning where the previous
ends; and on Allwinner A64 with 4 cores and free_start = 0x40080000 it
produces exactly the expected addresses. -/
theorem addr_init_layout :
    (∀ fs nc,
      (Addr.init fs nc).no_cache_start = fs ∧
      (Addr.init fs nc).no_cache_end = fs + PAGESIZE * nc ∧
      (Addr.init fs nc).tt_firm_start = (Addr.init fs nc).no_cache_end ∧
      (Addr.init fs nc).tt_firm_end = (Addr.init fs nc).tt_firm_start + PAGESIZE * 9 ∧
      (Addr.init fs nc).tt_el1_ttbr0_start = (Addr.init fs nc).tt_firm_end ∧
      (Addr.init fs nc).tt_el1_ttbr0_end =
        (Addr.init fs nc).tt_el1_ttbr0_start + PAGESIZE * 9 ∧
      (Addr.init fs nc).tt_el1_ttbr1_start = (Addr.init fs nc).tt_el1_ttbr0_end ∧
      (Addr.init fs nc).tt_el1_ttbr1_end =
        (Addr.init fs nc).tt_el1_ttbr1_start + PAGESIZE * 5 ∧
      (Addr.init fs nc).stack_size = 32 * PAGESIZE ∧
      (Addr.init fs nc).stack_el1_end = (Addr.init fs nc).tt_el1_ttbr1_end ∧
      (Addr.init fs nc).stack_el1_start =
        (Addr.init fs nc).stack_el1_end + (Addr.init fs nc).stack_size * nc ∧
      (Addr.init fs nc).stack_el0_end = (Addr.init fs nc).stack_el1_start ∧
      (Addr.init fs nc).stack_el0_start =
        (Addr.init fs nc).stack_el0_end + (Addr.init fs nc).stack_size * nc ∧
      (Addr.init fs nc).el0_heap_start = (Addr.init fs nc).stack_el0_start ∧
      (Addr.init fs nc).el0_heap_end =
        (Addr.init fs nc).el0_heap_start + PAGESIZE * 1024) ∧
    (a64_addr.no_cache_start = 0x40080000 ∧ a64_addr.no_cache_end = 0x400C0000 ∧
     a64_addr.tt_firm_start = 0x400C0000 ∧ a64_addr.tt_firm_end = 0x40150000 ∧
     a64_addr.tt_el1_ttbr0_start = 0x40150000 ∧ a64_addr.tt_el1_ttbr0_end = 0x401E0000 ∧
     a64_addr.tt_el1_ttbr1_start = 0x401E0000 ∧ a64_addr.tt_el1_ttbr1_end = 0x40230000 ∧
     a64_addr.stack_el1_end = 0x40230000 ∧ a64_addr.stack_el1_start = 0x40A30000 ∧
     a64_addr.stack_el0_end = 0x40A30000 ∧ a64_addr.stack_el0_start = 0x41230000 ∧
     a64_addr.el0_heap_start = 0x41230000 ∧ a64_addr.el0_heap_end = 0x45230000) :=
  ⟨fun _ _ => ⟨rfl, rfl, rfl, rfl, rfl, rfl, rfl, rfl, rfl, rfl, rfl, rfl, rfl, rfl, rfl⟩,
   by decide⟩

/-- Claim C3: for a 64 KiB-aligned VA and PA with the level-2 index
(va >> 29) & 8191 below the number of level-3 tables, TTable.map writes
exactly (pa & ~0xFFFF) | flag into the level-3 slot at index
idx3 va = ((va >> 29) & 8191) * 8192 + ((va >> 16) & 8191), leaves every
other slot unchanged, and a subsequent TTable.unmap of the same VA makes
that slot 0. -/
theorem ttable_map_roundtrip (t : TTable) (va pa flag : Nat)
    (hva : va % 65536 = 0) (hpa : pa % 65536 = 0)
    (h : (va >>> 29) &&& 8191 < t.num_lv3) :
    ((t.map va pa flag).map fun t2 => t2.lv3 (idx3 va)) =
      some ((pa &&& 0xFFFFFFFFFFFF0000) ||| flag) ∧
    (∀ j, j ≠ idx3 va → ((t.map va pa flag).map fun t2 => t2.lv3 j) = some (t.lv3 j)) ∧
    (((t.map va pa flag).bind fun t2 => t2.unmap va).map fun t3 => t3.lv3 (idx3 va)) =
      some 0 := by
  have hn : ¬ ((va >>> 29) &&& 8191 ≥ t.num_lv3) := by omega
  refine ⟨?_, ?_, ?_⟩
  · simp [TTable.map, idx3, if_neg hn]
  · intro j hj
    simp [TTable.map, idx3, if_neg hn]
    intro heq
    exact absurd heq (by simpa [idx3] using hj)
  · simp [TTable.map, TTable.unmap, idx3, if_neg hn]

/-- Witness for C3 at the concrete table-entry-encoding scenario:
map(0x40000000, 0x40000000, AF|ISH|AP rw/none|AttrIdx normal|0b11 =
0x703) writes 0x40000703, and the slot index is 2 * 8192 + 0. -/
theorem ttable_map_roundtrip_witness :
    (((TTable.new 0x400C0000 1 8).map 0x40000000 0x40000000 0x703).map
        fun t2 => t2.lv3 (idx3 0x40000000)) = some 0x40000703 ∧
    idx3 0x40000000 = 2 * 8192 := by
  have h := ttable_map_roundtrip (TTable.new 0x400C0000 1 8) 0x40000000 0x40000000 0x703
    (by decide) (by decide) (by decide)
  refine ⟨?_, by decide⟩
  rw [h.1]
  decide

/-- Claim C6: after TTable.new(base, N2, N3), every in-bounds level-2
descriptor below N3 holds the address of the corresponding level-3
sub-table (level-3 storage begins at base + PAGESIZE * N2, entries are
8 bytes) OR 0b11, every in-bounds descriptor at or above N3 is 0, and
map and unmap never change the level-2 table (they write only level-3
slots). -/
theorem ttable_new_lv2_invariant (a n2 n3 : Nat) :
    (∀ i, i < 8192 * n2 → i < n3 →
      (TTable.new a n2 n3).lv2 i = (a + PAGESIZE * n2 + 8 * (i * 8192)) ||| 0b11) ∧
    (∀ i, n3 ≤ i → i < 8192 * n2 → (TTable.new a n2 n3).lv2 i = 0) ∧
    (∀ t : TTable, ∀ va pa flag t2, t.map va pa flag = some t2 → t2.lv2 = t.lv2) ∧
    (∀ t : TTable, ∀ va t2, t.unmap va = some t2 → t2.lv2 = t.lv2) := by
  refine ⟨?_, ?_, ?_, ?_⟩
  · intro i h1 h2
    simp only [TTable.new]
    rw [lv2_setup_spec, if_pos ⟨h1, h2⟩]
  · intro i h1 h2
    simp only [TTable.new]
    rw [lv2_setup_spec, if_neg (by omega)]
  · intro t va pa flag t2 h
    simp only [TTable.map] at h
    split at h
    · exact absurd h (by simp)
    · cases h
      rfl
  · intro t va t2 h
    simp only [TTable.unmap] at h
    split at h
    · exact absurd h (by simp)
    · cases h
      rfl

/-- Witness for C6: the firmware table (1 level-2 page, 8 level-3
pages at 0x400C0000) after TTable.new has L2[0] pointing at the first
level-3 sub-table and L2[100] = 0, and a successful map keeps L2. -/
theorem ttable_new_lv2_invariant_witness :
    (TTable.new 0x400C0000 1 8).lv2 0 =
      (0x400C0000 + PAGESIZE * 1 + 8 * (0 * 8192)) ||| 0b11 ∧
    (TTable.new 0x400C0000 1 8).lv2 100 = 0 := by
  have h := ttable_new_lv2_invariant 0x400C0000 1 8
  exact ⟨h.1 0 (by decide) (by decide), h.2.1 100 (by decide) (by decide)⟩

/-- Claim C8: TTable.map with a level-2 index at or above the number of
level-3 tables hits the panic branch ("memory map error"), modelled as
none: it does not return a table and writes no entry. -/
theorem ttable_map_out_of_range (t : TTable) (va pa flag : Nat)
    (h : t.num_lv3 ≤ (va >>> 29) &&& 8191) :
    t.map va pa flag = none := by
  simp only [TTable.map]
  rw [if_pos h]

/-- Witness for C8: on the firmware table (8 level-3 tables), mapping
VA = 0x100000000 (level-2 index 8) hits the panic branch. -/
theorem ttable_map_out_of_range_witness :
    (TTable.new 0x400C0000 1 8).num_lv3 ≤ (0x100000000 >>> 29) &&& 8191 ∧
    (TTable.new 0x400C0000 1 8).map 0x100000000 0 0 = none :=
  ⟨by decide, ttable_map_out_of_range _ 0x100000000 0 0 (by decide)⟩

/-- Claim C10: TTable.unmap has exactly the same out-of-range behavior
as map: a level-2 index at or above the number of level-3 tables hits
the panic branch ("memory unmap error"), modelled as none, rather than
being a no-op or silently storing 0. -/
theorem ttable_unmap_out_of_range (t : TTable) (va : Nat)
    (h : t.num_lv3 ≤ (va >>> 29) &&& 8191) :
    t.unmap va = none := by
  simp only [TTable.unmap]
  rw [if_pos h]

/-- Witness for C10: on the EL1 TTBR1 table (4 level-3 tables),
unmapping VA = 0x80000000 (level-2 index 4) hits the panic branch. -/
theorem ttable_unmap_out_of_range_witness :
    (TTable.new 0x401E0000 1 4).num_lv3 ≤ (0x80000000 >>> 29) &&& 8191 ∧
    (TTable.new 0x401E0000 1 4).unmap 0x80000000 = none :=
  ⟨by decide, ttable_unmap_out_of_range _ 0x80000000 (by decide)⟩

/-- Claim C9: dropping a SpinLock guard performs exactly, in order, a
store of 0 to the lock word, then the store barrier dmb_st, then
send_event (SEV); after running those operations the lock word is 0. -/
theorem spinlock_release_ops :
    spinlock_drop_ops = [CpuOp.store_lock 0, CpuOp.dmb_st, CpuOp.send_event] ∧
    ∀ word, run_lock_ops word spinlock_drop_ops = 0 :=
  ⟨rfl, fun _ => rfl⟩

/-- Counterexample to claim C5: a slave CPU (core_pos = 1) also writes
MEMORY_MAP — entry calls init_memory_map on every CPU before branching
on core_pos, so the write is not performed by the master only. -/
theorem slave_cpu_writes_memory_map : BootOp.write_map ∈ entry_ops 1 := by
  decide

/-- Claim C5 as amended: MEMORY_MAP is populated exactly once by every
CPU (master and slaves alike), as the first action of entry, before any
read of the map and before MMU enable; no writes occur afterwards. -/
theorem memory_map_written_once_per_cpu :
    ∀ core_pos, (entry_ops core_pos).count BootOp.write_map = 1 ∧
      (entry_ops core_pos).head? = some BootOp.write_map := by
  intro core
  by_cases h : core = 0
  · subst h
    exact ⟨by decide, rfl⟩
  · simp only [entry_ops, if_neg h]
    exact ⟨by decide, rfl⟩

/-- Claim C7: mmu::init first checks ID_AA64MMFR0_EL1: a PA-range field
[3:0] below 1 yields the UART message "ERROR: 36 bit address space not
supported" and the absent result before any table is built; a nonzero
64 KiB-granule field [27:24] yields "ERROR: 64KiB granule not
supported" and the absent result; otherwise it builds the firmware
table (init_el2 at EL2, init_firm otherwise) and the two EL1 tables,
and at the concrete A64 instantiation the build succeeds. -/
theorem mmu_init_feature_detect (num_cpu : Nat) (ls : LinkerSyms) (addr : Addr)
    (el mmfr : Nat) :
    (mmfr &&& 0xF < 1 →
      mmu_init num_cpu ls addr el mmfr =
        MmuInitResult.unsupported "ERROR: 36 bit address space not supported\n") ∧
    (1 ≤ mmfr &&& 0xF → mmfr &&& (0xF <<< 24) ≠ 0 →
      mmu_init num_cpu ls addr el mmfr =
        MmuInitResult.unsupported "ERROR: 64KiB granule not supported\n") ∧
    (1 ≤ mmfr &&& 0xF → mmfr &&& (0xF <<< 24) = 0 →
      mmu_init num_cpu ls addr el mmfr =
        MmuInitResult.built
          (if el = 2 then init_el2 num_cpu ls addr else init_firm num_cpu ls addr)
          (init_el1 num_cpu ls addr)) ∧
    (init_firm 4 a64_ls a64_addr).isSome = true ∧
    (init_el1 4 a64_ls a64_addr).isSome = true := by
  refine ⟨fun h1 => ?_, fun h1 h2 => ?_, fun h1 h2 => ?_, by decide, by decide⟩
  · simp only [mmu_init, if_pos h1]
  · simp only [mmu_init]
    rw [if_neg (by omega), if_pos h2]
  · simp only [mmu_init]
    rw [if_neg (by omega), if_neg (fun hne => hne h2)]

/-- Witness for C7: with the PA-range field 0 init reports the 36-bit
error, with field value 1 but a nonzero granule field it reports the
granule error, and with mmfr = 1 it builds the tables. -/
theorem mmu_init_feature_detect_witness :
    mmu_init 4 a64_ls a64_addr 3 0 =
      MmuInitResult.unsupported "ERROR: 36 bit address space not supported\n" ∧
    mmu_init 4 a64_ls a64_addr 3 0x1000001 =
      MmuInitResult.unsupported "ERROR: 64KiB granule not supported\n" ∧
    mmu_init 4 a64_ls a64_addr 3 1 =
      MmuInitResult.built (init_firm 4 a64_ls a64_addr) (init_el1 4 a64_ls a64_addr) :=
  ⟨(mmu_init_feature_detect 4 a64_ls a64_addr 3 0).1 (by decide),
   (mmu_init_feature_detect 4 a64_ls a64_addr 3 0x1000001).2.1 (by decide) (by decide),
   by
    have h := (mmu_init_feature_detect 4 a64_ls a64_addr 3 1).2.2.1
      (by decide) (by decide)
    simpa using h⟩

/-- Claim C1 is contradicted by the code: on core 0 of 4 CPUs with no
contention (all entering flags false, all numbers zero) the ticket is
taken and the per-CPU scan completes (second conjunct), but
BakeryLock::new never returns the guard: the outer loop of the source
contains no break or return, so for every fuel bound the acquire yields
none (first conjunct) — the acquire does not terminate. -/
theorem bakery_lock_never_acquires :
    (∀ fuel t, bakery_acquire 4 0 fuel t = none) ∧
    scan_ok 4 0 (bakery_take_ticket 4 0 BakeryTicket.new) = true := by
  constructor
  · intro fuel
    induction fuel with
    | zero => intro t; rfl
    | succ n ih =>
      intro t
      simp only [bakery_acquire]
      split
      · exact ih _
      · rfl
  · decide

/-- Claim C4: after full table initialization at the concrete A64
instantiation (4 cores, free_start 0x40080000, stack_size 0x200000,
__stack_firm_end = 0x40030000, stack_el0_end = 0x40A30000,
stack_el1_end = E = 0x40230000), the guard page at the bottom of each
CPU stack allotment is unmapped: the firmware table has zero slots at
0x40030000 + i * 0x200000, the EL1 TTBR0 table at 0x40A30000 +
i * 0x200000, and the EL1 TTBR1 table at E + i * 0x200000 for
i = 0, 1, 2, 3, while the next page of each region (in particular
VA = E + 0x10000) is mapped. -/
theorem init_guard_pages_unmapped :
    ((init_firm 4 a64_ls a64_addr).map fun t =>
        [t.lv3 (idx3 0x40030000), t.lv3 (idx3 0x40230000),
         t.lv3 (idx3 0x40430000), t.lv3 (idx3 0x40630000),
         t.lv3 (idx3 0x40040000)]) =
      some [0, 0, 0, 0, 0x60000040040703] ∧
    ((init_el1 4 a64_ls a64_addr).map fun p =>
        ([p.1.lv3 (idx3 0x40A30000), p.1.lv3 (idx3 0x40C30000),
          p.1.lv3 (idx3 0x40E30000), p.1.lv3 (idx3 0x41030000),
          p.1.lv3 (idx3 0x40A40000)],
         [p.2.lv3 (idx3 0x40230000), p.2.lv3 (idx3 0x40430000),
          p.2.lv3 (idx3 0x40630000), p.2.lv3 (idx3 0x40830000),
          p.2.lv3 (idx3 0x40240000)])) =
      some ([0, 0, 0, 0, 0x60000040A40743],
            [0, 0, 0, 0, 0x60000040240703]) :=
  ⟨by decide, by decide⟩

end Baremetalisp

